import Mathlib

/-!
# Verification of the Saweria webhook ingestion and retrieval bridge

Shallow embedding of the two endpoint modules:

* `api/webhook.js` — the inbound admission pipeline: per-IP rate limiting,
  HMAC signature verification, payload validation, duplicate suppression,
  and the bounded, time-decaying in-memory donation store.
* `api/donations.js` — the authenticated retrieval endpoint that returns
  unprocessed donations and marks them processed.

Time is modelled in milliseconds as `Nat` (JavaScript `Date.now()`).
JavaScript objects reaching the validator are modelled by `Payload` whose
fields hold `Option JVal` (`none` = absent/`undefined`).  The Node `Map`s
backing the rate limiters are association lists; the duplicate `Set` with
its `setTimeout`-based self-removal is a list of `(id, expireAt)` pairs
pruned by `fireDupTimers` when the clock advances past an entry's expiry.
The external crypto primitives (HMAC-SHA256 hex digest, SHA-256 key hash)
are parameters of the handlers; `crypto.timingSafeEqual`, which throws when
the two buffers have different byte lengths, is modelled in `Except`.
-/

namespace Saweria

/-- Milliseconds since epoch, as produced by `Date.now()`. -/
abbrev Millis := Nat

/-! ## Constants (from `api/webhook.js` and `api/donations.js`) -/

/-- `MAX_DONATIONS = 100` — maximum donations kept in memory. -/
def MAX_DONATIONS : Nat := 100

/-- `DONATION_EXPIRY = 5 * 60 * 1000` — donation TTL (5 minutes). -/
def DONATION_EXPIRY : Nat := 5 * 60 * 1000

/-- `WEBHOOK_RATE_LIMIT = 10` — max webhooks per window per IP. -/
def WEBHOOK_RATE_LIMIT : Nat := 10

/-- `RATE_LIMIT_WINDOW = 60 * 1000` — one minute, used by both limiters. -/
def RATE_LIMIT_WINDOW : Nat := 60 * 1000

/-- `DUPLICATE_CHECK_WINDOW = 10 * 60 * 1000` — duplicate-id lifetime. -/
def DUPLICATE_CHECK_WINDOW : Nat := 10 * 60 * 1000

/-- `ROBLOX_RATE_LIMIT = 60` — max retrieval requests per window per key. -/
def ROBLOX_RATE_LIMIT : Nat := 60

/-! ## JavaScript value model -/

/-- A JavaScript value as far as the validator distinguishes them:
a string or a number.  Numbers are modelled as `Int` (all values the
validator accepts are integers in range). -/
inductive JVal where
  | jstr (s : String)
  | jnum (n : Int)
deriving DecidableEq

/-- A request body object `{donor_name, amount, message}`; `none` models an
absent field (`undefined`). -/
structure Payload where
  donor_name : Option JVal
  amount : Option JVal
  message : Option JVal
deriving DecidableEq

/-- JavaScript truthiness of a possibly-absent value: `undefined`, `""` and
`0` are falsy. -/
def jvTruthy : Option JVal → Bool
  | none => false
  | some (.jstr s) => !(s = "")
  | some (.jnum n) => !(n = 0)

/-- `typeof v === 'string'`. -/
def jvIsStr : Option JVal → Bool
  | some (.jstr _) => true
  | _ => false

/-- `typeof v === 'number'`. -/
def jvIsNum : Option JVal → Bool
  | some (.jnum _) => true
  | _ => false

/-- The underlying string of a value known to be a string. -/
def jvStr : Option JVal → String
  | some (.jstr s) => s
  | _ => ""

/-- The underlying number of a value known to be a number. -/
def jvNum : Option JVal → Int
  | some (.jnum n) => n
  | _ => 0

/-- Truthiness of a possibly-absent string (headers, env vars): absent or
empty is falsy. -/
def optTruthy : Option String → Bool
  | some s => !(s = "")
  | none => false

/-! ## Character classes and string helpers -/

/-- The characters matched by the JavaScript regex class `\s`: space, the
control whitespace characters, and the Unicode space separators. -/
def jsWhitespace (c : Char) : Bool :=
  c = ' ' || c = '\t' || c = '\n' || c = '\u000B' || c = '\u000C' ||
  c = '\r' || c = '\u00A0' || c = '\u1680' ||
  ('\u2000' ≤ c && c ≤ '\u200A') ||
  c = '\u2028' || c = '\u2029' || c = '\u202F' || c = '\u205F' ||
  c = '\u3000' || c = '\uFEFF'

/-- Membership in the donor-name class `[a-zA-Z0-9\s_-]` of the source
regex `/^[a-zA-Z0-9\s_-]+$/`. -/
def nameCharOk (c : Char) : Bool :=
  ('a' ≤ c && c ≤ 'z') || ('A' ≤ c && c ≤ 'Z') || ('0' ≤ c && c ≤ '9') ||
  jsWhitespace c || c = '_' || c = '-'

/-- `/^[a-zA-Z0-9\s_-]+$/.test(s)`: nonempty and every character in the
class. -/
def nameRegexTest (s : String) : Bool :=
  !(s = "") && s.toList.all nameCharOk

/-- JavaScript `String.prototype.trim`: strip whitespace from both ends. -/
def jsTrim (s : String) : String :=
  String.mk (((s.toList.dropWhile jsWhitespace).reverse.dropWhile
    jsWhitespace).reverse)

/-! ## `validateDonationData` (webhook.js, lines 251–267) -/

/-- `data.message && data.message.length > 200` — the length test of the
message field; a non-string has no `length`, so the comparison is false. -/
def jvMsgLenGt200 : Option JVal → Bool
  | some (.jstr s) => decide (s.length > 200)
  | _ => false

/-- Embedding of `validateDonationData(data)`, check for check in source
order. -/
def validateDonationData (data : Option Payload) : Bool :=
  match data with
  | none => false
  | some d =>
    if !(jvTruthy d.donor_name) || !(jvIsStr d.donor_name) then false
    else if !(jvTruthy d.amount) || !(jvIsNum d.amount) then false
    else if jvNum d.amount ≤ 0 || jvNum d.amount > 100000000 then false
    else if (jvStr d.donor_name).length > 50 then false
    else if !(nameRegexTest (jvStr d.donor_name)) then false
    else if jvTruthy d.message && jvMsgLenGt200 d.message then false
    else true

/-! ## Buffers and `crypto.timingSafeEqual` -/

/-- UTF-8 encoding of one character, as a list of byte values. -/
def charUtf8 (c : Char) : List Nat :=
  let n := c.toNat
  if n < 128 then [n]
  else if n < 2048 then [192 + n / 64, 128 + n % 64]
  else if n < 65536 then
    [224 + n / 4096, 128 + (n / 64) % 64, 128 + n % 64]
  else
    [240 + n / 262144, 128 + (n / 4096) % 64, 128 + (n / 64) % 64,
     128 + n % 64]

/-- `Buffer.from(s)`: the UTF-8 bytes of a string. -/
def strBytes (s : String) : List Nat :=
  (s.toList.map charUtf8).flatten

/-- `crypto.timingSafeEqual(a, b)`: equality of two buffers; throws a
`RangeError` (modelled by `Except.error`) when the byte lengths differ. -/
def timingSafeEqual (a b : List Nat) : Except Unit Bool :=
  if a.length = b.length then .ok (decide (a = b)) else .error ()

/-! ## `validateWebhookSignature` (webhook.js, lines 183–195) -/

/-- Embedding of `validateWebhookSignature(payload, signature, secret)`.
`hmacHex secret payload` stands for
`crypto.createHmac('sha256', secret).update(JSON.stringify(payload)).digest('hex')`,
an external crypto primitive supplied as a parameter.  The result is in
`Except` because `crypto.timingSafeEqual` throws when the presented
signature and the computed hex digest have different byte lengths. -/
def validateWebhookSignature (hmacHex : String → Option Payload → String)
    (payload : Option Payload) (signature : Option String)
    (secret : Option String) : Except Unit Bool :=
  if !(optTruthy signature) || !(optTruthy secret) then .ok false
  else
    let calculatedSignature :=
      hmacHex ((secret.getD "")) payload
    timingSafeEqual (strBytes (signature.getD ""))
      (strBytes calculatedSignature)

/-! ## Rate limiters (webhook.js lines 200–214, donations.js lines 38–52) -/

/-- A Node `Map` from identity to its timestamp list. -/
abbrev RLMap := List (String × List Millis)

/-- `map.get(k) || []`. -/
def mapGetD (m : RLMap) (k : String) : List Millis :=
  match m.find? (fun p => p.1 = k) with
  | some p => p.2
  | none => []

/-- `map.set(k, v)`: replace the binding if present, else add it. -/
def mapSet (m : RLMap) (k : String) (v : List Millis) : RLMap :=
  if m.any (fun p => p.1 = k) then
    m.map (fun p => if p.1 = k then (k, v) else p)
  else m ++ [(k, v)]

/-- Embedding of `checkRateLimit(ip)` from webhook.js, with the map and the
clock explicit.  Returns the verdict and the updated map. -/
def checkRateLimit (m : RLMap) (ip : String) (now : Millis) :
    Bool × RLMap :=
  let requests := mapGetD m ip
  let validRequests :=
    requests.filter (fun time => now - time < RATE_LIMIT_WINDOW)
  if validRequests.length ≥ WEBHOOK_RATE_LIMIT then (false, m)
  else (true, mapSet m ip (validRequests ++ [now]))

/-- Embedding of `checkRobloxRateLimit(identifier)` from donations.js. -/
def checkRobloxRateLimit (m : RLMap) (identifier : String) (now : Millis) :
    Bool × RLMap :=
  let requests := mapGetD m identifier
  let validRequests :=
    requests.filter (fun time => now - time < RATE_LIMIT_WINDOW)
  if validRequests.length ≥ ROBLOX_RATE_LIMIT then (false, m)
  else (true, mapSet m identifier (validRequests ++ [now]))

/-! ## Duplicate suppression (webhook.js, lines 219–232) -/

/-- The `recentDonationIds` set: each recorded id with the instant at which
its `setTimeout(..., DUPLICATE_CHECK_WINDOW)` deletion fires. -/
abbrev DupSet := List (String × Millis)

/-- The event loop running every expired deletion timer: entries whose
expiry instant has been reached are gone before the next request runs. -/
def fireDupTimers (s : DupSet) (now : Millis) : DupSet :=
  s.filter (fun p => now < p.2)

/-- Embedding of `isDuplicate(donationId)`: membership test, recording the
id (with its deletion deadline) when absent. -/
def isDuplicate (s : DupSet) (donationId : String) (now : Millis) :
    Bool × DupSet :=
  if s.any (fun p => p.1 = donationId) then (true, s)
  else (false, s ++ [(donationId, now + DUPLICATE_CHECK_WINDOW)])

/-! ## The donation store -/

/-- A stored donation record (webhook.js, lines 330–337). -/
structure Donation where
  id : String
  donor_name : String
  amount : Int
  message : String
  timestamp : Millis
  processed : Bool
deriving DecidableEq

/-- Embedding of `cleanupExpiredDonations()`: keep entries with
`now - d.timestamp < DONATION_EXPIRY`. -/
def cleanupExpiredDonations (ds : List Donation) (now : Millis) :
    List Donation :=
  ds.filter (fun d => now - d.timestamp < DONATION_EXPIRY)

/-! ## The webhook handler (webhook.js, lines 269–366, POST path) -/

/-- The module-level mutable state of webhook.js. -/
structure WebhookState where
  donations : List Donation
  webhookRateLimit : RLMap
  recentDonationIds : DupSet
deriving DecidableEq

/-- The initial state: empty store, empty limiter map, empty duplicate
set. -/
def emptyWebhookState : WebhookState :=
  { donations := [], webhookRateLimit := [], recentDonationIds := [] }

/-- The responses the POST path of the webhook handler can produce. -/
inductive WebhookResp where
  /-- `429 {error: 'Too many requests'}`. -/
  | tooManyRequests
  /-- `401 {error: 'Invalid signature'}`. -/
  | invalidSignature
  /-- `400 {error: 'Invalid donation data'}`. -/
  | invalidData
  /-- `200 {success: true, message: 'Duplicate donation ignored'}`. -/
  | duplicateIgnored
  /-- `200 {success: true, message: 'Donation received', donation_id}`. -/
  | received (donation_id : String)
  /-- `500 {error: 'Internal server error'}` from the handler's catch. -/
  | internalError
deriving DecidableEq

/-- `donationData.message ? donationData.message.trim() : ''` — trimming a
truthy non-string throws (`.trim` is not a function), which the handler's
catch turns into a 500. -/
def messageValue : Option JVal → Except Unit String
  | some (.jstr s) => if s = "" then .ok "" else .ok (jsTrim s)
  | some (.jnum n) => if n = 0 then .ok "" else .error ()
  | none => .ok ""

/-- The composite id used for duplicate detection:
``donationData.donor_name + "_" + donationData.amount + "_" + Date.now()``
(template literal of webhook.js, line 318). -/
def donationKey (name : String) (amount : Int) (now : Millis) : String :=
  name ++ "_" ++ toString amount ++ "_" ++ toString now

/-- One execution of the webhook handler's POST body, from the source, with
the state, the clock, the fresh random storage id
(`crypto.randomBytes(16).toString('hex')`) and the headers explicit.
`hmacHex` abstracts the HMAC-SHA256 hex digest primitive. -/
def webhookStep (hmacHex : String → Option Payload → String)
    (st : WebhookState) (now : Millis) (freshId : String)
    (clientIp : String) (signature : Option String)
    (secret : Option String) (body : Option Payload) :
    WebhookResp × WebhookState :=
  let rl := checkRateLimit st.webhookRateLimit clientIp now
  if !rl.1 then (.tooManyRequests, st)
  else
    let st1 : WebhookState := { st with webhookRateLimit := rl.2 }
    let sigCheck : Except Unit Bool :=
      if optTruthy secret && optTruthy signature then
        validateWebhookSignature hmacHex body signature secret
      else .ok true
    match sigCheck with
    | .error _ => (.internalError, st1)
    | .ok false => (.invalidSignature, st1)
    | .ok true =>
      if !(validateDonationData body) then (.invalidData, st1)
      else
        match body with
        | none => (.invalidData, st1)
        | some d =>
          let donationId :=
            donationKey (jvStr d.donor_name) (jvNum d.amount) now
          let dup := isDuplicate st1.recentDonationIds donationId now
          let st2 : WebhookState := { st1 with recentDonationIds := dup.2 }
          if dup.1 then (.duplicateIgnored, st2)
          else
            match messageValue d.message with
            | .error _ => (.internalError, st2)
            | .ok msg =>
              let donation : Donation :=
                { id := freshId
                  donor_name := jsTrim (jvStr d.donor_name)
                  amount := jvNum d.amount
                  message := msg
                  timestamp := now
                  processed := false }
              let ds0 := st2.donations ++ [donation]
              let ds1 :=
                if ds0.length > MAX_DONATIONS then ds0.tail else ds0
              let ds2 := cleanupExpiredDonations ds1 now
              (.received freshId, { st2 with donations := ds2 })

/-- A webhook request as it is observed from outside: the event loop first
fires every expired duplicate-set deletion timer, then runs the handler. -/
def webhookCall (hmacHex : String → Option Payload → String)
    (st : WebhookState) (now : Millis) (freshId : String)
    (clientIp : String) (signature : Option String)
    (secret : Option String) (body : Option Payload) :
    WebhookResp × WebhookState :=
  webhookStep hmacHex
    { st with recentDonationIds := fireDupTimers st.recentDonationIds now }
    now freshId clientIp signature secret body

/-! ## The retrieval endpoint (donations.js) -/

/-- The projected (public-safe) shape sent to the polling client:
`{id, donor_name, amount, message, timestamp}` — `processed` omitted. -/
structure PublicDonation where
  id : String
  donor_name : String
  amount : Int
  message : String
  timestamp : Millis
deriving DecidableEq

/-- Projection of a stored donation to the response shape. -/
def toPublic (d : Donation) : PublicDonation :=
  { id := d.id, donor_name := d.donor_name, amount := d.amount,
    message := d.message, timestamp := d.timestamp }

/-- The module-level mutable state of donations.js: the store shared with
webhook.js plus the retrieval limiter map. -/
structure RobloxState where
  donations : List Donation
  robloxRateLimit : RLMap
deriving DecidableEq

/-- The responses the GET path of the donations handler can produce. -/
inductive DonationsResp where
  /-- `401 {error: 'Unauthorized'}`. -/
  | unauthorized
  /-- `429 {error: 'Too many requests'}`. -/
  | tooManyRequests
  /-- `200 {success: true, count, donations}`. -/
  | ok (count : Nat) (donations : List PublicDonation)
deriving DecidableEq

/-- Embedding of `validateApiKey(apiKey)` (donations.js, lines 18–33), with
the environment value `process.env.API_KEY` explicit.  The
`crypto.timingSafeEqual` call is wrapped in try/catch, so a byte-length
mismatch yields `false` instead of an exception. -/
def validateApiKey (validApiKey apiKey : Option String) : Bool :=
  if !(optTruthy validApiKey) then false
  else if !(optTruthy apiKey) then false
  else
    match timingSafeEqual (strBytes (apiKey.getD ""))
        (strBytes (validApiKey.getD "")) with
    | .ok b => b
    | .error _ => false

/-- One execution of the donations handler's GET body.  `keyHash` abstracts
`crypto.createHash('sha256').update(apiKey).digest('hex').substring(0, 16)`,
the identity derivation for the retrieval limiter. -/
def donationsCall (keyHash : String → String)
    (validApiKey : Option String) (st : RobloxState) (now : Millis)
    (apiKey : Option String) : DonationsResp × RobloxState :=
  if !(validateApiKey validApiKey apiKey) then (.unauthorized, st)
  else
    let identifier := keyHash (apiKey.getD "")
    let rl := checkRobloxRateLimit st.robloxRateLimit identifier now
    if !rl.1 then (.tooManyRequests, st)
    else
      let st1 : RobloxState := { st with robloxRateLimit := rl.2 }
      let unprocessedDonations := st1.donations.filter (fun d => !d.processed)
      let donations2 := st1.donations.map
        (fun d => if d.processed then d else { d with processed := true })
      (.ok unprocessedDonations.length (unprocessedDonations.map toPublic),
        { st1 with donations := donations2 })

/-! ## Spec-side validator predicates (for comparison with the source)

`specValidateC8` follows the words of the specification: donor name rejected
for a character outside `[A-Za-z0-9 _-]` — space only, not arbitrary
whitespace.  `specValidateC8Amended` is the amended reading: the class is
`[A-Za-z0-9\s_-]` with `\s` the full JavaScript whitespace class, and an
empty donor name is also rejected. -/

/-- Acceptance predicate as the spec words it: donor_name a string of at
most 50 characters over `[A-Za-z0-9 _-]` (space only), amount a number in
`(0, 100000000]`, message (when a string) at most 200 characters. -/
def specValidateC8 : Option Payload → Bool
  | none => false
  | some d =>
    (match d.donor_name with
     | some (.jstr s) =>
         decide (s.length ≤ 50) &&
         s.toList.all (fun c =>
           ('a' ≤ c && c ≤ 'z') || ('A' ≤ c && c ≤ 'Z') ||
           ('0' ≤ c && c ≤ '9') || c = ' ' || c = '_' || c = '-')
     | _ => false) &&
    (match d.amount with
     | some (.jnum a) => decide (0 < a) && decide (a ≤ 100000000)
     | _ => false) &&
    (match d.message with
     | some (.jstr m) => decide (m.length ≤ 200)
     | _ => true)

/-- Amended acceptance predicate: donor_name nonempty, at most 50
characters, over `[A-Za-z0-9\s_-]` with `\s` the JavaScript whitespace
class; amount and message as before. -/
def specValidateC8Amended : Option Payload → Bool
  | none => false
  | some d =>
    (match d.donor_name with
     | some (.jstr s) =>
         !(s = "") && decide (s.length ≤ 50) && s.toList.all nameCharOk
     | _ => false) &&
    (match d.amount with
     | some (.jnum a) => decide (0 < a) && decide (a ≤ 100000000)
     | _ => false) &&
    (match d.message with
     | some (.jstr m) => decide (m.length ≤ 200)
     | _ => true)

/-! ## Concrete fixtures -/

/-- A stand-in for the HMAC-SHA256 hex-digest primitive: any function
returning a 64-character hex string (the length is all the claims use). -/
def hmac64 : String → Option Payload → String :=
  fun _ _ => String.mk (List.replicate 64 'a')

/-- The record `{donor_name: "Alice", amount: 100}`. -/
def payloadAlice : Payload :=
  { donor_name := some (.jstr "Alice"), amount := some (.jnum 100),
    message := none }

/-- `{donor_name: "Alice", amount: 100}` as a request body. -/
def bodyAlice : Option Payload := some payloadAlice

/-- `{donor_name: "A", amount: 100}`. -/
def bodyA100 : Option Payload :=
  some { donor_name := some (.jstr "A"), amount := some (.jnum 100),
         message := none }

/-- `{donor_name: "A\tB", amount: 100}` — a donor name containing a tab. -/
def bodyTabName : Option Payload :=
  some { donor_name := some (.jstr "A\tB"), amount := some (.jnum 100),
         message := none }

/-- `{donor_name: "Al!ce", amount: 100}`. -/
def bodyAlExclCe : Option Payload :=
  some { donor_name := some (.jstr "Al!ce"), amount := some (.jnum 100),
         message := none }

/-- `{donor_name: "Alice", amount: 0}`. -/
def bodyAliceZero : Option Payload :=
  some { donor_name := some (.jstr "Alice"), amount := some (.jnum 0),
         message := none }

/-- `{donor_name: "Alice", amount: 5000}` with no message. -/
def bodyAlice5000 : Option Payload :=
  some { donor_name := some (.jstr "Alice"), amount := some (.jnum 5000),
         message := none }

/-- A 64-character presented signature that does not match `hmac64`. -/
def sig64b : String := String.mk (List.replicate 64 'b')

/-- A state in which the ip `"ip"` has exhausted its submission quota at
time 0: ten timestamps inside the window. -/
def rlFullState : WebhookState :=
  { emptyWebhookState with
    webhookRateLimit := [("ip", List.replicate 10 0)] }

/-- The origin used by the `i`-th admission of the 101-admission run: the
single character with code `65 + i / 10`, so each origin submits at most
ten times. -/
def ipName (i : Nat) : String := String.mk [Char.ofNat (65 + i / 10)]

/-- Admitting 101 valid events in sequence: the `i`-th admission happens at
time `i` with storage id `"i" ++ toString i`, no secret configured, and the
same valid body. -/
def run101 : WebhookState :=
  (List.range 101).foldl
    (fun st i =>
      (webhookCall hmac64 st i ("i" ++ toString i) (ipName i)
        none none bodyA100).2)
    emptyWebhookState

/-! ## Shared handler lemmas -/

/-- A suppressed duplicate: when the rate limit passes, the signature
check passes or is skipped, the body validates, and the composite key is
already recorded, the handler acknowledges with the duplicate message and
stores nothing. -/
theorem webhookCall_duplicate (hmac : String → Option Payload → String)
    (st : WebhookState) (now : Millis) (fid ip : String)
    (sig secret : Option String) (d : Payload)
    (hrl : (checkRateLimit st.webhookRateLimit ip now).1 = true)
    (hauth : (optTruthy secret && optTruthy sig) = false ∨
      validateWebhookSignature hmac (some d) sig secret = .ok true)
    (hval : validateDonationData (some d) = true)
    (hdup : (fireDupTimers st.recentDonationIds now).any
        (fun p => p.1 =
          donationKey (jvStr d.donor_name) (jvNum d.amount) now) =
      true) :
    (webhookCall hmac st now fid ip sig secret (some d)).1 =
      .duplicateIgnored ∧
    (webhookCall hmac st now fid ip sig secret (some d)).2.donations =
      st.donations := by
  by_cases hsec : optTruthy secret = true <;>
    by_cases hsg : optTruthy sig = true <;>
    rcases hauth with hauth | hauth <;>
    simp_all [webhookCall, webhookStep, isDuplicate]

/-- Inversion for a successful retrieval: an `ok` response carries exactly
the unprocessed entries (projected), their count, and the post-state has
every one of them marked processed. -/
theorem donationsCall_ok_inv (keyHash : String → String)
    (vk : Option String) (st : RobloxState) (now : Millis)
    (key : Option String) (c : Nat) (pds : List PublicDonation)
    (h : (donationsCall keyHash vk st now key).1 = .ok c pds) :
    pds = (st.donations.filter (fun d => !d.processed)).map toPublic ∧
    c = (st.donations.filter (fun d => !d.processed)).length ∧
    (donationsCall keyHash vk st now key).2.donations =
      st.donations.map (fun d =>
        if d.processed then d else { d with processed := true }) := by
  cases hvv : validateApiKey vk key
  · simp [donationsCall, hvv] at h
  · cases hr : (checkRobloxRateLimit st.robloxRateLimit
        (keyHash (key.getD "")) now).1
    · simp [donationsCall, hvv, hr] at h
    · simp only [donationsCall, hvv, hr] at h ⊢
      simp at h ⊢
      exact ⟨h.2.symm, h.1.symm⟩

/-! ## Claim C1 -/

/-- Any outcome of the webhook handler other than a successful admission
leaves the donation store untouched. -/
theorem webhook_store_unchanged_unless_received
    (hmac : String → Option Payload → String) (st : WebhookState)
    (now : Millis) (fid ip : String) (sig secret : Option String)
    (body : Option Payload) :
    (webhookCall hmac st now fid ip sig secret body).1 = .received fid ∨
    (webhookCall hmac st now fid ip sig secret body).2.donations =
      st.donations := by
  cases hrl : (checkRateLimit st.webhookRateLimit ip now).1
  · right; simp [webhookCall, webhookStep, hrl]
  · cases hb : (optTruthy secret && optTruthy sig)
    · cases hval : validateDonationData body
      · right; simp [webhookCall, webhookStep, hrl, hb, hval]
      · cases body with
        | none => right; simp [webhookCall, webhookStep, hrl, hb, hval]
        | some d =>
          cases hdup : (fireDupTimers st.recentDonationIds now).any
              (fun p => p.1 =
                donationKey (jvStr d.donor_name) (jvNum d.amount) now)
          · rcases hmsg : messageValue d.message with e | m
            · right; simp [webhookCall, webhookStep, isDuplicate, hrl,
                hb, hval, hdup, hmsg]
            · left; simp [webhookCall, webhookStep, isDuplicate, hrl,
                hb, hval, hdup, hmsg]
          · right; simp [webhookCall, webhookStep, isDuplicate, hrl,
              hb, hval, hdup]
    · rcases hs : validateWebhookSignature hmac body sig secret with e | bb
      · right; simp [webhookCall, webhookStep, hrl, hb, hs]
      · cases bb
        · right; simp [webhookCall, webhookStep, hrl, hb, hs]
        · cases hval : validateDonationData body
          · right; simp [webhookCall, webhookStep, hrl, hb, hs, hval]
          · cases body with
            | none => right; simp [webhookCall, webhookStep, hrl, hb,
                hs, hval]
            | some d =>
              cases hdup : (fireDupTimers st.recentDonationIds now).any
                  (fun p => p.1 =
                    donationKey (jvStr d.donor_name) (jvNum d.amount) now)
              · rcases hmsg : messageValue d.message with e | m
                · right; simp [webhookCall, webhookStep, isDuplicate,
                    hrl, hb, hs, hval, hdup, hmsg]
                · left; simp [webhookCall, webhookStep, isDuplicate,
                    hrl, hb, hs, hval, hdup, hmsg]
              · right; simp [webhookCall, webhookStep, isDuplicate,
                  hrl, hb, hs, hval, hdup]

/-- Counterexample to claim C1 as stated: a submission that fails BOTH the
signature check and the rate limit receives the rate-limit response (429),
not the auth response (401) an auth-first pipeline would give: the code
checks the rate limit before the signature. -/
theorem c1_auth_not_first :
    validateWebhookSignature hmac64 bodyAlice (some sig64b) (some "s") =
      .ok false ∧
    (webhookCall hmac64 rlFullState 0 "f1" "ip" (some sig64b) (some "s")
        bodyAlice).1 = .tooManyRequests :=
  ⟨rfl, rfl⟩

/-- Claim C1 (amended): the admission checks run in the order rate limit
first, then signature (applied only when both a secret and a signature are
present), then payload validation, then duplicate suppression; the first
failing check short-circuits and determines the response, and every
non-admission outcome leaves the event store unchanged (no partial
admission). -/
theorem c1_pipeline_order (hmac : String → Option Payload → String)
    (st : WebhookState) (now : Millis) (fid ip : String)
    (sig secret : Option String) (body : Option Payload) :
    ((checkRateLimit st.webhookRateLimit ip now).1 = false →
      webhookCall hmac st now fid ip sig secret body =
        (.tooManyRequests,
          { st with recentDonationIds :=
              fireDupTimers st.recentDonationIds now })) ∧
    ((checkRateLimit st.webhookRateLimit ip now).1 = true →
      (optTruthy secret && optTruthy sig) = true →
      validateWebhookSignature hmac body sig secret = .ok false →
      (webhookCall hmac st now fid ip sig secret body).1 =
        .invalidSignature) ∧
    ((checkRateLimit st.webhookRateLimit ip now).1 = true →
      ((optTruthy secret && optTruthy sig) = false ∨
        validateWebhookSignature hmac body sig secret = .ok true) →
      validateDonationData body = false →
      (webhookCall hmac st now fid ip sig secret body).1 =
        .invalidData) ∧
    (∀ d, body = some d →
      (checkRateLimit st.webhookRateLimit ip now).1 = true →
      ((optTruthy secret && optTruthy sig) = false ∨
        validateWebhookSignature hmac body sig secret = .ok true) →
      validateDonationData body = true →
      (fireDupTimers st.recentDonationIds now).any
          (fun p => p.1 =
            donationKey (jvStr d.donor_name) (jvNum d.amount) now) =
        true →
      (webhookCall hmac st now fid ip sig secret body).1 =
        .duplicateIgnored) ∧
    ((webhookCall hmac st now fid ip sig secret body).1 ≠ .received fid →
      (webhookCall hmac st now fid ip sig secret body).2.donations =
        st.donations) := by
  refine ⟨fun hrl => ?_, fun hrl hauth hsig => ?_,
    fun hrl hauth hval => ?_, fun d hbody hrl hauth hval hdup => ?_,
    fun hne => ?_⟩
  · simp [webhookCall, webhookStep, hrl]
  · simp [webhookCall, webhookStep, hrl, hauth, hsig]
  · by_cases hsec : optTruthy secret = true <;>
      by_cases hsg : optTruthy sig = true <;>
      rcases hauth with hauth | hauth <;>
      simp_all [webhookCall, webhookStep]
  · subst hbody
    by_cases hsec : optTruthy secret = true <;>
      by_cases hsg : optTruthy sig = true <;>
      rcases hauth with hauth | hauth <;>
      simp_all [webhookCall, webhookStep, isDuplicate]
  · exact (webhook_store_unchanged_unless_received hmac st now fid ip sig secret
      body).resolve_left hne

/-- Witness for `c1_pipeline_order`: a request from an origin whose window
is full is refused with 429 and nothing is recorded. -/
theorem c1_pipeline_order_witness :
    webhookCall hmac64 rlFullState 0 "f2" "ip" none none bodyAlice =
      (.tooManyRequests, rlFullState) := by
  have h := (c1_pipeline_order hmac64 rlFullState 0 "f2" "ip" none none
    bodyAlice).1 (by decide)
  exact h

/-! ## Claim C2 -/

/-- Claim C2 is a code bug: the signature verifier is NOT a total boolean
function.  When the presented signature's byte length differs from the
64-byte hex digest, `crypto.timingSafeEqual` throws a `RangeError` instead
of returning false, and the handler's catch-all turns a 3-byte signature
under a configured secret into a 500 response rather than a 401.  The
sibling `validateApiKey` in donations.js wraps the same comparison in
try/catch and does return false, showing the intended fail-closed
behaviour. -/
theorem c2_signature_verifier_throws :
    validateWebhookSignature hmac64 bodyAlice (some "abc") (some "s")
        = .error () ∧
    (webhookCall hmac64 emptyWebhookState 0 "f1" "ip" (some "abc")
        (some "s") bodyAlice).1 = .internalError ∧
    validateApiKey (some "s") (some "abc") = false :=
  ⟨rfl, rfl, rfl⟩

/-! ## Claim C3 -/

/-- Counterexample to claim C3 as stated: with a secret configured and no
signature presented, the submission is NOT rejected before admission — it
is admitted unverified (200 with a fresh storage id, store grown by one),
because the handler verifies only when `webhookSecret && signature` is
truthy. -/
theorem c3_missing_signature_admitted :
    (webhookCall hmac64 emptyWebhookState 0 "f1" "ip" none (some "s")
        bodyAlice).1 = .received "f1" ∧
    (webhookCall hmac64 emptyWebhookState 0 "f1" "ip" none (some "s")
        bodyAlice).2.donations.length = 1 :=
  ⟨rfl, rfl⟩

/-- Claim C3 (amended): signature verification is applied only when both a
secret is configured and a signature is presented.  A submission without a
(truthy) signature behaves exactly as if no secret were configured; with a
falsy secret the presented signature is ignored; and when both are present
and verification returns false, a submission that passed the rate limit is
rejected with 401. -/
theorem c3_signature_skip (hmac : String → Option Payload → String)
    (st : WebhookState) (now : Millis) (fid ip : String)
    (sig secret : Option String) (body : Option Payload) :
    (optTruthy sig = false →
      webhookCall hmac st now fid ip sig secret body =
        webhookCall hmac st now fid ip sig none body) ∧
    (optTruthy secret = false →
      webhookCall hmac st now fid ip sig secret body =
        webhookCall hmac st now fid ip none secret body) ∧
    ((checkRateLimit st.webhookRateLimit ip now).1 = true →
      (optTruthy secret && optTruthy sig) = true →
      validateWebhookSignature hmac body sig secret = .ok false →
      (webhookCall hmac st now fid ip sig secret body).1 =
        .invalidSignature) := by
  refine ⟨fun hs => ?_, fun hs => ?_, fun hrl hb hv => ?_⟩
  · simp [webhookCall, webhookStep, hs]
  · simp [webhookCall, webhookStep, hs]
  · simp [webhookCall, webhookStep, hrl, hb, hv]

/-- Witness for `c3_signature_skip`: with a configured secret and no
signature header, the call behaves exactly as with no secret. -/
theorem c3_signature_skip_witness :
    webhookCall hmac64 emptyWebhookState 0 "f3" "ip" none (some "s")
        bodyAlice =
      webhookCall hmac64 emptyWebhookState 0 "f3" "ip" none none
        bodyAlice :=
  (c3_signature_skip hmac64 emptyWebhookState 0 "f3" "ip" none (some "s")
    bodyAlice).1 rfl

/-! ## Admission inversion -/

/-- The donation object built at admission (webhook.js, lines 330–337). -/
def mkDonation (fid : String) (d : Payload) (msg : String)
    (now : Millis) : Donation :=
  { id := fid, donor_name := jsTrim (jvStr d.donor_name),
    amount := jvNum d.amount, message := msg, timestamp := now,
    processed := false }

/-- Inversion for a successful admission: a `received` response implies the
body validated, the message field trimmed without throwing, the composite
duplicate key was fresh and is now recorded, and the new store is the
pushed, capacity-capped, TTL-swept list. -/
theorem webhookCall_received_inv
    (hmac : String → Option Payload → String) (st : WebhookState)
    (now : Millis) (fid ip : String) (sig secret : Option String)
    (body : Option Payload)
    (h : (webhookCall hmac st now fid ip sig secret body).1 =
      .received fid) :
    ∃ d msg, body = some d ∧ validateDonationData body = true ∧
      messageValue d.message = .ok msg ∧
      (fireDupTimers st.recentDonationIds now).any
          (fun p => p.1 =
            donationKey (jvStr d.donor_name) (jvNum d.amount) now) =
        false ∧
      (webhookCall hmac st now fid ip sig secret
            body).2.recentDonationIds =
        fireDupTimers st.recentDonationIds now ++
          [(donationKey (jvStr d.donor_name) (jvNum d.amount) now,
            now + DUPLICATE_CHECK_WINDOW)] ∧
      (webhookCall hmac st now fid ip sig secret body).2.donations =
        cleanupExpiredDonations
          (if (st.donations ++ [mkDonation fid d msg now]).length >
              MAX_DONATIONS then
            (st.donations ++ [mkDonation fid d msg now]).tail
          else st.donations ++ [mkDonation fid d msg now]) now := by
  cases hrl : (checkRateLimit st.webhookRateLimit ip now).1
  · simp [webhookCall, webhookStep, hrl] at h
  · cases hb : (optTruthy secret && optTruthy sig)
    · cases hval : validateDonationData body
      · simp [webhookCall, webhookStep, hrl, hb, hval] at h
      · cases body with
        | none => simp [validateDonationData] at hval
        | some d =>
          cases hdup : (fireDupTimers st.recentDonationIds now).any
              (fun p => p.1 =
                donationKey (jvStr d.donor_name) (jvNum d.amount) now)
          · rcases hmsg : messageValue d.message with e | m
            · simp [webhookCall, webhookStep, isDuplicate, hrl, hb,
                hval, hdup, hmsg] at h
            · exact ⟨d, m, rfl, rfl, hmsg, hdup, by
                simp [webhookCall, webhookStep, isDuplicate, hrl, hb,
                  hval, hdup, hmsg], by
                simp [webhookCall, webhookStep, isDuplicate, mkDonation,
                  hrl, hb, hval, hdup, hmsg]⟩
          · simp [webhookCall, webhookStep, isDuplicate, hrl, hb, hval,
              hdup] at h
    · rcases hs : validateWebhookSignature hmac body sig secret with e | bb
      · simp [webhookCall, webhookStep, hrl, hb, hs] at h
      · cases bb
        · simp [webhookCall, webhookStep, hrl, hb, hs] at h
        · cases hval : validateDonationData body
          · simp [webhookCall, webhookStep, hrl, hb, hs, hval] at h
          · cases body with
            | none => simp [validateDonationData] at hval
            | some d =>
              cases hdup : (fireDupTimers st.recentDonationIds now).any
                  (fun p => p.1 =
                    donationKey (jvStr d.donor_name) (jvNum d.amount)
                      now)
              · rcases hmsg : messageValue d.message with e | m
                · simp [webhookCall, webhookStep, isDuplicate, hrl, hb,
                    hs, hval, hdup, hmsg] at h
                · exact ⟨d, m, rfl, rfl, hmsg, hdup, by
                    simp [webhookCall, webhookStep, isDuplicate, hrl,
                      hb, hs, hval, hdup, hmsg], by
                    simp [webhookCall, webhookStep, isDuplicate,
                      mkDonation, hrl, hb, hs, hval, hdup, hmsg]⟩
              · simp [webhookCall, webhookStep, isDuplicate, hrl, hb,
                  hs, hval, hdup] at h

/-! ## Claim C4 -/

/-- The webhook state after admitting `bodyAlice` at time 0. -/
def c4State1 : WebhookState :=
  (webhookCall hmac64 emptyWebhookState 0 "f1" "ip" none none bodyAlice).2

/-- Counterexample to claim C4 as stated: the duplicate key embeds
`Date.now()` at millisecond precision, so two submissions of the same
`(donor_name, amount)` pair one millisecond apart — well inside the
10-minute window — are BOTH admitted: the second gets a fresh-donation
response, not the duplicate acknowledgment, and the store count rises by
2. -/
theorem c4_same_pair_not_suppressed :
    (webhookCall hmac64 emptyWebhookState 0 "f1" "ip" none none
        bodyAlice).1 = .received "f1" ∧
    (webhookCall hmac64 c4State1 1 "f2" "ip" none none bodyAlice).1 =
      .received "f2" ∧
    (webhookCall hmac64 c4State1 1 "f2" "ip" none none
        bodyAlice).2.donations.length = 2 :=
  ⟨rfl, rfl, rfl⟩

/-- Claim C4 (amended): duplicate suppression fires exactly when the two
submissions of the same `(donor_name, amount)` pair carry the same
millisecond clock value: if the first was admitted, then a second call at
the same instant — passing rate limiting, with its signature check passed
or skipped — receives the duplicate acknowledgment (a success response)
and leaves the store untouched, the two calls together having grown the
store by exactly 1 (below capacity, with nothing expired). -/
theorem c4_same_millisecond_suppressed
    (hmac : String → Option Payload → String) (st : WebhookState)
    (now : Millis) (fid1 fid2 ip1 ip2 : String)
    (sig1 sig2 secret1 secret2 : Option String) (d : Payload)
    (h1 : (webhookCall hmac st now fid1 ip1 sig1 secret1 (some d)).1 =
      .received fid1)
    (h2 : (checkRateLimit (webhookCall hmac st now fid1 ip1 sig1 secret1
        (some d)).2.webhookRateLimit ip2 now).1 = true)
    (h3 : (optTruthy secret2 && optTruthy sig2) = false ∨
      validateWebhookSignature hmac (some d) sig2 secret2 = .ok true) :
    (webhookCall hmac (webhookCall hmac st now fid1 ip1 sig1 secret1
        (some d)).2 now fid2 ip2 sig2 secret2 (some d)).1 =
      .duplicateIgnored ∧
    (webhookCall hmac (webhookCall hmac st now fid1 ip1 sig1 secret1
        (some d)).2 now fid2 ip2 sig2 secret2 (some d)).2.donations =
      (webhookCall hmac st now fid1 ip1 sig1 secret1
        (some d)).2.donations ∧
    (st.donations.length < MAX_DONATIONS →
      st.donations.all (fun x => now - x.timestamp < DONATION_EXPIRY) =
        true →
      (webhookCall hmac st now fid1 ip1 sig1 secret1
          (some d)).2.donations.length = st.donations.length + 1) := by
  obtain ⟨d', msg, hbody, hval, hmsg, hfresh, hrec, hdon⟩ :=
    webhookCall_received_inv hmac st now fid1 ip1 sig1 secret1 (some d) h1
  obtain rfl : d = d' := Option.some.inj hbody
  have hdup2 : (fireDupTimers (webhookCall hmac st now fid1 ip1 sig1
      secret1 (some d)).2.recentDonationIds now).any
        (fun p => p.1 =
          donationKey (jvStr d.donor_name) (jvNum d.amount) now) =
      true := by
    rw [hrec]
    simp [fireDupTimers, List.filter_append, DUPLICATE_CHECK_WINDOW]
  obtain ⟨hresp, hdons⟩ := webhookCall_duplicate hmac _ now fid2 ip2
    sig2 secret2 d h2 h3 hval hdup2
  refine ⟨hresp, hdons, fun hlen hall => ?_⟩
  rw [hdon]
  have hgt : ¬((st.donations ++ [mkDonation fid1 d msg now]).length >
      MAX_DONATIONS) := by
    simp only [List.length_append, List.length_cons, List.length_nil]
    omega
  rw [if_neg hgt]
  have hkeep : cleanupExpiredDonations
      (st.donations ++ [mkDonation fid1 d msg now]) now =
      st.donations ++ [mkDonation fid1 d msg now] := by
    apply List.filter_eq_self.mpr
    intro a ha
    rcases List.mem_append.mp ha with ha | ha
    · exact List.all_eq_true.mp hall a ha
    · have : a = mkDonation fid1 d msg now := by simpa using ha
      subst this
      simp [mkDonation, DONATION_EXPIRY]
  rw [hkeep]
  simp

/-- Witness for `c4_same_millisecond_suppressed`: the same pair submitted
twice at the same instant is acknowledged as a duplicate. -/
theorem c4_same_millisecond_suppressed_witness :
    (webhookCall hmac64 (webhookCall hmac64 emptyWebhookState 0 "f1" "ip"
        none none bodyAlice).2 0 "f2" "ip2" none none bodyAlice).1 =
      .duplicateIgnored :=
  (c4_same_millisecond_suppressed hmac64 emptyWebhookState 0 "f1" "f2"
    "ip" "ip2" none none none none payloadAlice rfl (by decide)
    (Or.inl rfl)).1

/-! ## Claim C6 -/

set_option maxRecDepth 100000 in
set_option maxHeartbeats 1600000 in
/-- Claim C6: after every admission the store holds at most 100 events
(given it did before), and an admission into a full, unexpired store
removes exactly the single oldest-inserted event — regardless of its
processed flag or remaining TTL — keeping the rest in order and appending
the new event; in particular the concrete 101-admission run `run101` ends
with exactly 100 events and the first-admitted event (storage id `"i0"`)
absent. -/
theorem c6_capacity_fifo :
    (∀ (hmac : String → Option Payload → String) (st : WebhookState)
        (now : Millis) (fid ip : String) (sig secret : Option String)
        (body : Option Payload),
      st.donations.length ≤ MAX_DONATIONS →
      (webhookCall hmac st now fid ip sig secret
          body).2.donations.length ≤ MAX_DONATIONS) ∧
    (∀ (hmac : String → Option Payload → String) (st : WebhookState)
        (now : Millis) (fid ip : String) (sig secret : Option String)
        (body : Option Payload),
      st.donations.length = MAX_DONATIONS →
      st.donations.all (fun x => now - x.timestamp < DONATION_EXPIRY) =
        true →
      (webhookCall hmac st now fid ip sig secret body).1 =
        .received fid →
      ∃ dnew, dnew.id = fid ∧ dnew.timestamp = now ∧
        dnew.processed = false ∧
        (webhookCall hmac st now fid ip sig secret body).2.donations =
          st.donations.tail ++ [dnew]) ∧
    (run101.donations.length = 100 ∧
      run101.donations.all (fun d => !(d.id = "i0")) = true) := by
  refine ⟨?_, ?_, by decide⟩
  · intro hmac st now fid ip sig secret body hle
    rcases webhook_store_unchanged_unless_received hmac st now fid ip sig secret
        body with h | h
    · obtain ⟨d, msg, hbody, hval, hmsg, hfresh, hrec, hdon⟩ :=
        webhookCall_received_inv hmac st now fid ip sig secret body h
      rw [hdon]
      refine le_trans (List.length_filter_le _ _) ?_
      by_cases hgt : (st.donations ++ [mkDonation fid d msg now]).length >
          MAX_DONATIONS
      · rw [if_pos hgt]
        simp only [List.length_tail, List.length_append,
          List.length_cons, List.length_nil]
        omega
      · rw [if_neg hgt]
        omega
    · rw [h]; exact hle
  · intro hmac st now fid ip sig secret body hlen hall h
    obtain ⟨d, msg, hbody, hval, hmsg, hfresh, hrec, hdon⟩ :=
      webhookCall_received_inv hmac st now fid ip sig secret body h
    refine ⟨mkDonation fid d msg now, rfl, rfl, rfl, ?_⟩
    rw [hdon]
    have hgt : (st.donations ++ [mkDonation fid d msg now]).length >
        MAX_DONATIONS := by
      simp only [List.length_append, List.length_cons, List.length_nil]
      omega
    rw [if_pos hgt]
    have htail : (st.donations ++ [mkDonation fid d msg now]).tail =
        st.donations.tail ++ [mkDonation fid d msg now] := by
      cases hds : st.donations with
      | nil => rw [hds] at hlen; simp [MAX_DONATIONS] at hlen
      | cons a l => simp
    rw [htail]
    apply List.filter_eq_self.mpr
    intro a ha
    rcases List.mem_append.mp ha with ha | ha
    · exact List.all_eq_true.mp hall a (List.mem_of_mem_tail ha)
    · have : a = mkDonation fid d msg now := by simpa using ha
      subst this
      simp [mkDonation, DONATION_EXPIRY]

/-- Witness for `c6_capacity_fifo`: a concrete admission into a store
within capacity stays within capacity. -/
theorem c6_capacity_fifo_witness :
    (webhookCall hmac64 emptyWebhookState 0 "w6" "ip" none none
        bodyAlice).2.donations.length ≤ MAX_DONATIONS :=
  c6_capacity_fifo.1 hmac64 emptyWebhookState 0 "w6" "ip" none none
    bodyAlice (by decide)

/-! ## Claim C5 -/

/-- Claim C5: a successful retrieval returns exactly the events whose
processed flag is false (projected to the public shape), in ascending
accepted_at order whenever the store is so ordered, and the post-state has
each returned event marked processed; consequently a second successful
call with no intervening admission returns the empty sequence and count 0,
so no event is handed out twice. -/
theorem c5_take_unprocessed (keyHash : String → String)
    (vk : Option String) (st : RobloxState) (now now2 : Millis)
    (key key2 : Option String) :
    (∀ c pds, (donationsCall keyHash vk st now key).1 = .ok c pds →
      pds = (st.donations.filter (fun d => !d.processed)).map toPublic ∧
      c = (st.donations.filter (fun d => !d.processed)).length ∧
      (donationsCall keyHash vk st now key).2.donations =
        st.donations.map (fun d =>
          if d.processed then d else { d with processed := true })) ∧
    (∀ c pds, (donationsCall keyHash vk st now key).1 = .ok c pds →
      List.Pairwise (fun a b => a.timestamp ≤ b.timestamp) st.donations →
      List.Pairwise
        (fun (a b : PublicDonation) => a.timestamp ≤ b.timestamp) pds) ∧
    (∀ c pds c2 pds2,
      (donationsCall keyHash vk st now key).1 = .ok c pds →
      (donationsCall keyHash vk (donationsCall keyHash vk st now key).2
          now2 key2).1 = .ok c2 pds2 →
      pds2 = [] ∧ c2 = 0) := by
  refine ⟨fun c pds h =>
      donationsCall_ok_inv keyHash vk st now key c pds h,
    fun c pds h hsorted => ?_, fun c pds c2 pds2 h h2 => ?_⟩
  · obtain ⟨hpds, -, -⟩ :=
      donationsCall_ok_inv keyHash vk st now key c pds h
    subst hpds
    exact List.Pairwise.map _ (fun a b hab => hab)
      ((hsorted).sublist (List.filter_sublist _))
  · obtain ⟨-, -, hpost⟩ :=
      donationsCall_ok_inv keyHash vk st now key c pds h
    obtain ⟨hpds2, hc2, -⟩ :=
      donationsCall_ok_inv keyHash vk _ now2 key2 c2 pds2 h2
    have hemp : ((donationsCall keyHash vk st now key).2.donations.filter
        (fun d => !d.processed)) = [] := by
      rw [hpost, List.filter_eq_nil_iff]
      intro a ha
      rcases List.mem_map.mp ha with ⟨b, hb, rfl⟩
      by_cases hbp : b.processed <;> simp [hbp]
    rw [hemp] at hpds2 hc2
    exact ⟨by simpa using hpds2, by simpa using hc2⟩

/-- The stored donation produced by admitting `bodyAlice` at time 0 with
storage id `"f1"`. -/
def donF1 : Donation :=
  { id := "f1", donor_name := "Alice", amount := 100, message := "",
    timestamp := 0, processed := false }

/-- A retrieval state holding exactly `donF1`, unprocessed. -/
def rsW5 : RobloxState :=
  { donations := [donF1], robloxRateLimit := [] }

/-- Witness for `c5_take_unprocessed` on a one-event store with a valid
key. -/
theorem c5_take_unprocessed_witness :
    [toPublic donF1] =
      (rsW5.donations.filter (fun d => !d.processed)).map toPublic ∧
    (1 : Nat) = (rsW5.donations.filter (fun d => !d.processed)).length ∧
    (donationsCall (fun s => s) (some "k") rsW5 0
        (some "k")).2.donations =
      rsW5.donations.map (fun d =>
        if d.processed then d else { d with processed := true }) :=
  (c5_take_unprocessed (fun s => s) (some "k") rsW5 0 0 (some "k")
    (some "k")).1 1 [toPublic donF1] rfl

/-! ## Claim C7 -/

/-- The store shared with the retrieval endpoint after a single admission
of `bodyAlice` at time 0, with a fresh retrieval limiter. -/
def oneDonationRoblox : RobloxState :=
  { donations := (webhookCall hmac64 emptyWebhookState 0 "f1" "ip" none
      none bodyAlice).2.donations,
    robloxRateLimit := [] }

/-- Counterexample to the second half of claim C7: an event admitted at
time 0 and queried at time 300000 — its TTL fully elapsed
(`now - accepted_at ≥ DONATION_EXPIRY`) — is still returned by the
retrieval endpoint and still present in the store, because only the
admission path sweeps. -/
theorem c7_expired_event_still_returned :
    DONATION_EXPIRY ≤ 300000 - donF1.timestamp ∧
    oneDonationRoblox.donations = [donF1] ∧
    (donationsCall (fun s => s) (some "k") oneDonationRoblox 300000
        (some "k")).1 = .ok 1 [toPublic donF1] ∧
    (donationsCall (fun s => s) (some "k") oneDonationRoblox 300000
        (some "k")).2.donations = [{ donF1 with processed := true }] :=
  ⟨by decide, rfl, rfl, rfl⟩

/-- Claim C7 (amended): every successful admission sweeps the store — in
the post-state every event satisfies `now - accepted_at < T_ttl` — but the
retrieval path performs no sweep: it never removes an entry, and an
expired but unprocessed event is still returned by a successful
retrieval. -/
theorem c7_ttl_sweep :
    (∀ (hmac : String → Option Payload → String) (st : WebhookState)
        (now : Millis) (fid ip : String) (sig secret : Option String)
        (body : Option Payload),
      (webhookCall hmac st now fid ip sig secret body).1 =
        .received fid →
      ((webhookCall hmac st now fid ip sig secret body).2.donations.all
        (fun d => now - d.timestamp < DONATION_EXPIRY)) = true) ∧
    (∀ (keyHash : String → String) (vk : Option String)
        (st : RobloxState) (now : Millis) (key : Option String),
      (donationsCall keyHash vk st now key).2.donations.length =
        st.donations.length) ∧
    (∀ (keyHash : String → String) (vk : Option String)
        (st : RobloxState) (now : Millis) (key : Option String) c pds,
      (donationsCall keyHash vk st now key).1 = .ok c pds →
      ∀ d, d ∈ st.donations → d.processed = false →
        toPublic d ∈ pds) := by
  refine ⟨fun hmac st now fid ip sig secret body h => ?_,
    fun keyHash vk st now key => ?_,
    fun keyHash vk st now key c pds h d hd hp => ?_⟩
  · obtain ⟨d, msg, hbody, hval, hmsg, hfresh, hrec, hdon⟩ :=
      webhookCall_received_inv hmac st now fid ip sig secret body h
    rw [hdon]
    simp only [cleanupExpiredDonations]
    rw [List.all_eq_true]
    intro x hx
    exact (List.mem_filter.mp hx).2
  · cases hvv : validateApiKey vk key
    · simp [donationsCall, hvv]
    · cases hr : (checkRobloxRateLimit st.robloxRateLimit
          (keyHash (key.getD "")) now).1
      · simp [donationsCall, hvv, hr]
      · simp [donationsCall, hvv, hr]
  · obtain ⟨hpds, -, -⟩ :=
      donationsCall_ok_inv keyHash vk st now key c pds h
    subst hpds
    exact List.mem_map_of_mem _ (List.mem_filter.mpr ⟨hd, by simp [hp]⟩)

/-- Witness for `c7_ttl_sweep`: right after a concrete admission, every
stored event is inside its TTL. -/
theorem c7_ttl_sweep_witness :
    ((webhookCall hmac64 emptyWebhookState 0 "w7" "ip" none none
        bodyAlice).2.donations.all
      (fun d => 0 - d.timestamp < DONATION_EXPIRY)) = true :=
  c7_ttl_sweep.1 hmac64 emptyWebhookState 0 "w7" "ip" none none bodyAlice
    rfl

/-! ## Claim C8 -/

/-- Counterexample to claim C8 as stated: the donor name `"A\tB"` contains
a character (the tab) outside `[A-Za-z0-9 _-]`, so the claim predicts
rejection, but the source regex class is `[a-zA-Z0-9\s_-]` and JavaScript
`\s` matches the tab: the payload is accepted. -/
theorem c8_whitespace_divergence :
    validateDonationData bodyTabName = true ∧
    specValidateC8 bodyTabName = false := by
  exact ⟨rfl, rfl⟩

/-- Claim C8 (amended): the payload validator is a pure boolean function
accepting exactly the payloads with a nonempty donor_name string of at most
50 characters over `[A-Za-z0-9\s_-]` (JavaScript `\s`: all whitespace, not
just space), a numeric amount in `(0, 10^8]`, and a message that, when a
string, has at most 200 characters; in particular `{donor_name: "Al!ce",
amount: 100}` and `{donor_name: "Alice", amount: 0}` are rejected and
`{donor_name: "Alice", amount: 5000}` with no message is accepted. -/
theorem c8_validator_characterization :
    (∀ data, validateDonationData data = specValidateC8Amended data) ∧
    validateDonationData bodyAlExclCe = false ∧
    validateDonationData bodyAliceZero = false ∧
    validateDonationData bodyAlice5000 = true := by
  refine ⟨?_, rfl, rfl, rfl⟩
  intro data
  rcases data with _ | ⟨(_ | (s | n)), (_ | (s2 | a)), (_ | (m | mn))⟩ <;>
    simp only [validateDonationData, specValidateC8Amended, jvTruthy,
      jvIsStr, jvIsNum, jvStr, jvNum, jvMsgLenGt200, nameRegexTest,
      Bool.not_true, Bool.not_false, Bool.or_true, Bool.or_false,
      Bool.true_or, Bool.false_or, Bool.and_true, Bool.and_false,
      Bool.true_and, Bool.false_and, if_true, if_false] <;>
    split_ifs <;> simp_all <;>
      first
        | omega
        | (by_cases hm : m = ""
           · subst hm; decide
           · simp_all)

/-! ## Claim C9 -/

/-- Claim C9: each limiter call prunes the identity's stored timestamps to
the trailing 60-second window; when the pruned count has reached the limit
the call is rejected and the stored map is unchanged; otherwise the current
time is appended to the pruned sequence, the result is stored back, and the
call is allowed — with limit 10 for the submission limiter and 60 for the
retrieval limiter. -/
theorem c9_rate_limiter :
    (∀ m ip now,
      WEBHOOK_RATE_LIMIT ≤
          ((mapGetD m ip).filter
            (fun t => now - t < RATE_LIMIT_WINDOW)).length →
        checkRateLimit m ip now = (false, m)) ∧
    (∀ m ip now,
      ((mapGetD m ip).filter
          (fun t => now - t < RATE_LIMIT_WINDOW)).length <
          WEBHOOK_RATE_LIMIT →
        checkRateLimit m ip now =
          (true, mapSet m ip
            ((mapGetD m ip).filter (fun t => now - t < RATE_LIMIT_WINDOW)
              ++ [now]))) ∧
    (∀ m k now,
      ROBLOX_RATE_LIMIT ≤
          ((mapGetD m k).filter
            (fun t => now - t < RATE_LIMIT_WINDOW)).length →
        checkRobloxRateLimit m k now = (false, m)) ∧
    (∀ m k now,
      ((mapGetD m k).filter
          (fun t => now - t < RATE_LIMIT_WINDOW)).length <
          ROBLOX_RATE_LIMIT →
        checkRobloxRateLimit m k now =
          (true, mapSet m k
            ((mapGetD m k).filter (fun t => now - t < RATE_LIMIT_WINDOW)
              ++ [now]))) ∧
    WEBHOOK_RATE_LIMIT = 10 ∧ ROBLOX_RATE_LIMIT = 60 ∧
    RATE_LIMIT_WINDOW = 60 * 1000 := by
  refine ⟨fun m ip now h => ?_, fun m ip now h => ?_,
    fun m k now h => ?_, fun m k now h => ?_, rfl, rfl, rfl⟩ <;>
    simp only [checkRateLimit, checkRobloxRateLimit] <;>
    [rw [if_pos h]; rw [if_neg (Nat.not_le.mpr h)];
     rw [if_pos h]; rw [if_neg (Nat.not_le.mpr h)]]

/-- Witness for `c9_rate_limiter`: a full window is rejected without
mutation; a fresh identity is allowed and recorded. -/
theorem c9_rate_limiter_witness :
    checkRateLimit [("ip", List.replicate 10 0)] "ip" 0 =
      (false, [("ip", List.replicate 10 0)]) ∧
    checkRobloxRateLimit [] "k" 5 = (true, [("k", [5])]) :=
  ⟨c9_rate_limiter.1 _ _ _ (by decide),
   c9_rate_limiter.2.2.2.1 _ _ _ (by decide)⟩

/-! ## Claim C10 -/

/-- Claim C10: with no API_KEY configured, the credential check returns
false for every presented key and every retrieval request fails closed with
401 leaving the state unchanged; and the comparison never throws — a
presented key whose byte length differs from the configured value yields
false. -/
theorem c10_api_key_fail_closed :
    (∀ apiKey, validateApiKey none apiKey = false) ∧
    (∀ keyHash st now apiKey,
      donationsCall keyHash none st now apiKey = (.unauthorized, st)) ∧
    (∀ vk pk, (strBytes pk).length ≠ (strBytes vk).length →
      validateApiKey (some vk) (some pk) = false) := by
  refine ⟨fun _ => rfl, fun _ _ _ _ => rfl, fun vk pk h => ?_⟩
  by_cases hvk : vk = ""
  · simp [validateApiKey, optTruthy, hvk]
  · by_cases hpk : pk = ""
    · simp [validateApiKey, optTruthy, hvk, hpk]
    · simp [validateApiKey, optTruthy, hvk, hpk, timingSafeEqual, h]

/-- Witness for `c10_api_key_fail_closed`: no configured key rejects a
presented key; the handler answers 401 with the state unchanged; a
length-mismatched key yields false rather than an error. -/
theorem c10_api_key_fail_closed_witness :
    validateApiKey none (some "guess") = false ∧
    donationsCall (fun s => s) none
        { donations := [], robloxRateLimit := [] } 0 (some "guess") =
      (.unauthorized, { donations := [], robloxRateLimit := [] }) ∧
    validateApiKey (some "ab") (some "a") = false :=
  ⟨c10_api_key_fail_closed.1 _, c10_api_key_fail_closed.2.1 _ _ _ _,
   c10_api_key_fail_closed.2.2 "ab" "a" (by decide)⟩

end Saweria
